import Mathlib

/-
Verification of the Resume-Agent pipeline (agent.py, tools.py, parser.py, app.py).

The LangGraph pipeline is shallowly embedded: every call to the external
Generation Service (the Gemini LLM) is modelled as an oracle of type
`Except String String` (`Except.ok reply` when the service returns text,
`Except.error msg` when it raises).  Python dictionaries holding skill lists
are modelled as `List String` up to membership (Python set operations are
used by the source only through the membership test `in`).  The deterministic
parts of the source (routing, tier logic, set math, report assembly, the
try/except substitution of placeholder strings) are translated function by
function, keeping the source names.
-/

namespace ResumeAgent

/-- Python str.lower() as used by tools.calculate_ats_score: lowercase every
character (written by structural recursion over the character list so that
concrete inputs evaluate in the kernel). -/
def lower (s : String) : String := String.mk (s.data.map Char.toLower)

/-- Floor of the base-2 logarithm, written with explicit fuel so that it
recurses structurally and reduces inside the kernel; the first argument
starts at n, which bounds the number of halvings of any positive n. -/
def log2_fuel : Nat → Nat → Nat
  | 0, _ => 0
  | fuel + 1, n => if 2 ≤ n then log2_fuel fuel (n / 2) + 1 else 0

/-- Floor of log2 n (0 for n = 0): the exponent of the binade of n. -/
def bit_log2 (n : Nat) : Nat := log2_fuel n n

/-- Round the ratio a / b (of naturals, b > 0) to the nearest IEEE binary64
double under the default rounding mode (to nearest, ties to even),
returned as a mantissa-exponent pair (k, g) whose value is k * 2 ^ g.
The grid exponent g is e - 52 for a value in the binade [2^e, 2^(e+1)),
clamped below at -1074 for the subnormal range; the scores of this
development stay far below the binary64 overflow threshold, so no infinity
case arises.  This models how CPython evaluates the division and the
multiplication inside tools.calculate_ats_score, which are performed in
binary64 and not exactly. -/
def fp64_of_ratio (a b : Nat) : Nat × Int :=
  if a = 0 then (0, 0)
  else
    let la := bit_log2 a
    let lb := bit_log2 b
    let e : Int := if b * 2 ^ la ≤ a * 2 ^ lb then (la : Int) - lb
                   else (la : Int) - lb - 1
    let g : Int := max (e - 52) (-1074)
    let num := if g ≤ 0 then a * 2 ^ (-g).toNat else a
    let den := if g ≤ 0 then b else b * 2 ^ g.toNat
    let k := num / den
    let r := num % den
    let k := if den < 2 * r then k + 1
             else if 2 * r < den then k
             else if k % 2 = 0 then k else k + 1
    (k, g)

/-- Python `int((matched_count / jd_count) * 100)` (tools.py line 188) as
CPython computes it: the division is rounded to the nearest binary64
double, the multiplication by 100 rounds the exact product of that double
again, and int() truncates toward zero (floor, as the value is
nonnegative).  This differs from exact floor division at some counts:
for 29 matched of 50 required skills the doubles give 57 while exact
arithmetic gives 58. -/
def py_float_score (matched_count jd_count : Nat) : Nat :=
  let d := fp64_of_ratio matched_count jd_count
  let p := if d.2 ≤ 0 then fp64_of_ratio (100 * d.1) (2 ^ (-d.2).toNat)
           else fp64_of_ratio (100 * d.1 * 2 ^ d.2.toNat) 1
  if p.2 ≤ 0 then p.1 / 2 ^ (-p.2).toNat else p.1 * 2 ^ p.2.toNat

/-- Deterministic core of tools.calculate_ats_score (tools.py lines 175-199):
given the skill lists returned by the two extraction calls, lowercase both,
intersect and subtract them case-insensitively, map the result back to the
original casing of the job-description list, and score.  Python computes
`int((len(matched_skills) / len(jd_skills)) * 100)` in binary64 floating
point, modelled exactly by py_float_score.  Python sets are modelled as
lists up to membership. -/
def calculate_ats_score (resume_skills jd_skills : List String) :
    Nat × List String × List String :=
  let resume_skills_lower := resume_skills.map lower
  let jd_skills_lower := jd_skills.map lower
  let matched_skills_lower := jd_skills_lower.filter
    (fun s => resume_skills_lower.contains s)
  let missing_skills_lower := jd_skills_lower.filter
    (fun s => ! resume_skills_lower.contains s)
  let matched_skills := jd_skills.filter
    (fun skill => matched_skills_lower.contains (lower skill))
  let missing_skills := jd_skills.filter
    (fun skill => missing_skills_lower.contains (lower skill))
  let score := if jd_skills.length > 0 then
      py_float_score matched_skills.length jd_skills.length
    else 50
  let score := max 0 (min 100 score)
  (score, matched_skills, missing_skills)

/-- Modelled from the spec: the spec words the Skill Matcher score as
round(100 * matched / jd_skills), to be compared with the truncating score
actually computed by tools.calculate_ats_score. -/
def spec_round_score (matched_count jd_count : Nat) : Int :=
  round ((100 * (matched_count : Rat)) / (jd_count : Rat))

/-- Fixed confirmation sentence of the middle tier of
tools.generate_resume_improvements (tools.py line 325). -/
def no_major_improvements_msg : String :=
  "No major improvements needed. Your resume shows strong alignment with the job requirements."

/-- tools.generate_resume_improvements (tools.py lines 306-363).  The three
score tiers return without calling the service for ats_score >= 90 and for
85 <= ats_score < 90; below 85 the single service call is made and its reply
(or its exception) is the oracle `gen`.  The resume, jd and skill-list
arguments feed only the prompt text, which is elided. -/
def generate_resume_improvements (resume jd : String)
    (matched_skills missing_skills : List String) (ats_score : Int)
    (gen : Except String String) : Except String String :=
  if ats_score ≥ 90 then Except.ok ""
  else if ats_score ≥ 85 then Except.ok no_major_improvements_msg
  else gen

/-- Number of Generation Service calls performed by one invocation of
tools.generate_resume_improvements at a given ats_score: the top two tiers
return before the llm is created, the bottom tier calls it once. -/
def improvement_call_count (ats_score : Int) : Nat :=
  if ats_score ≥ 90 then 0
  else if ats_score ≥ 85 then 0
  else 1

/-- agent.route_after_ats (agent.py lines 328-335): binary routing on the
ATS score at threshold 60. -/
def route_after_ats (ats_score : Int) : String :=
  if ats_score < 60 then "resume_improvement" else "generate_cover_letter"

/-- Generation Service calls made for improvement suggestions in one
pipeline run with the given ATS score: agent.resume_improvement_node runs
only when route_after_ats chooses it (agent.py lines 360-370), and the node
calls generate_resume_improvements without an ats_score argument, so the
Python default 0 applies (tools.py line 306, agent.py lines 104-109). -/
def pipeline_improvement_calls (ats_score : Int) : Nat :=
  if route_after_ats ats_score = "resume_improvement" then
    improvement_call_count 0
  else 0

/-- agent.AgentState (agent.py lines 20-35). -/
structure AgentState where
  resume : String
  jd : String
  company_name : String
  ats_score : Int
  matched_skills : List String
  missing_skills : List String
  improvement_suggestions : String
  cover_letter : String
  optimized_bullets : String
  interview_questions : String
  role_expectations : String
  learning_plan : String
  final_output : String
  review_notes : String
  deriving DecidableEq

/-- Initial state built by agent.run_agent (agent.py lines 399-414). -/
def initial_state (resume_text jd_text company_name : String) : AgentState :=
  { resume := resume_text, jd := jd_text, company_name := company_name,
    ats_score := 0, matched_skills := [], missing_skills := [],
    improvement_suggestions := "", cover_letter := "", optimized_bullets := "",
    interview_questions := "", role_expectations := "", learning_plan := "",
    final_output := "", review_notes := "" }

/-- One oracle per Generation Service interaction of a pipeline run.
`atsExtract` stands for the pair of skill-extraction calls inside
calculate_ats_score (its error case covers any exception inside that
function, caught by ats_analysis_node). -/
structure Oracles where
  atsExtract : Except String (List String × List String)
  improveGen : Except String String
  coverGen : Except String String
  bulletsGen : Except String String
  interviewGen : Except String String
  roleGen : Except String String
  learningGen : Except String String
  reviewGen : Except String String
  reviseCoverGen : Except String String
  reviseBulletsGen : Except String String

/-- agent.parse_node (agent.py lines 38-41): identity on the state. -/
def parse_node (state : AgentState) : AgentState := state

/-- agent.ats_analysis_node (agent.py lines 44-62): on success store score
and skill lists, on any exception substitute score 50 and the two
one-element marker lists. -/
def ats_analysis_node (state : AgentState)
    (atsExtract : Except String (List String × List String)) : AgentState :=
  match atsExtract with
  | Except.ok (resume_skills, jd_skills) =>
      let result := calculate_ats_score resume_skills jd_skills
      { state with ats_score := (result.1 : Int),
                   matched_skills := result.2.1,
                   missing_skills := result.2.2 }
  | Except.error e =>
      { state with ats_score := 50,
                   matched_skills := ["Error analyzing skills"],
                   missing_skills := ["ATS analysis failed: " ++ e] }

/-- agent.resume_improvement_node (agent.py lines 99-116).  The call site
passes resume, jd and the two skill lists only, so ats_score takes the
Python default 0; a service exception is caught and replaced by the
placeholder string. -/
def resume_improvement_node (state : AgentState)
    (gen : Except String String) : AgentState :=
  match generate_resume_improvements state.resume state.jd
      state.matched_skills state.missing_skills 0 gen with
  | Except.ok suggestions =>
      { state with improvement_suggestions := suggestions }
  | Except.error e =>
      { state with improvement_suggestions :=
          "❌ Improvement suggestions failed: " ++ e }

/-- Placeholder substituted by agent.cover_letter_node on failure
(agent.py line 79). -/
def cover_letter_failed (e : String) : String :=
  "❌ Cover letter generation failed: " ++ e ++
    "\n\nPlease check your API key and try again."

/-- agent.cover_letter_node (agent.py lines 65-81).  The oracle carries the
generated letter after the markdown-bold stripping of
tools.generate_cover_letter. -/
def cover_letter_node (state : AgentState)
    (gen : Except String String) : AgentState :=
  match gen with
  | Except.ok cover_letter => { state with cover_letter := cover_letter }
  | Except.error e => { state with cover_letter := cover_letter_failed e }

/-- agent.resume_optimizer_node (agent.py lines 84-96). -/
def resume_optimizer_node (state : AgentState)
    (gen : Except String String) : AgentState :=
  match gen with
  | Except.ok bullets => { state with optimized_bullets := bullets }
  | Except.error e =>
      { state with optimized_bullets := "❌ Resume optimization failed: " ++ e }

/-- agent.interview_prep_node (agent.py lines 119-139): two independent
try/except blocks, one per service call. -/
def interview_prep_node (state : AgentState)
    (genQuestions genRole : Except String String) : AgentState :=
  let state := match genQuestions with
    | Except.ok questions => { state with interview_questions := questions }
    | Except.error e =>
        { state with interview_questions :=
            "❌ Interview questions generation failed: " ++ e }
  match genRole with
  | Except.ok role_research => { state with role_expectations := role_research }
  | Except.error e =>
      { state with role_expectations := "❌ Role research failed: " ++ e }

/-- Horizontal rule used by every section banner of the compiled report:
a line of 63 box-drawing double-bar characters, as in the source templates. -/
def section_rule : String :=
  String.mk (List.replicate 63 '═')

/-- The bullet list `chr(10).join(f"  • {skill}" for skill in skills[:10])`
of agent.compile_output_node and agent.revise_output_node. -/
def bullet_lines (skills : List String) : String :=
  String.intercalate "\n" ((skills.take 10).map (fun skill => "  • " ++ skill))

/-- Banner block opening the conditional improvement section
(agent.py lines 158-161 and 263-266). -/
def improvement_banner : String :=
  "\n" ++ section_rule ++
    "\n                   RESUME IMPROVEMENT SUGGESTIONS\n" ++
    section_rule ++ "\n\n"

/-- The conditional improvement section of both report templates
(agent.py lines 156-165 and 261-270): included only when the
improvement_suggestions field is truthy, i.e. a nonempty string. -/
def improvement_section (improvement_suggestions : String) : String :=
  if improvement_suggestions = "" then ""
  else improvement_banner ++ improvement_suggestions ++ "\n\n"

/-- Header banner of the report; revise_output_node adds the
REVISED VERSION line (agent.py lines 168-170 and 273-276). -/
def header_banner (revised : Bool) : String :=
  if revised then
    "\n" ++ section_rule ++
      "\n                    JOB APPLICATION PACKAGE\n                         (REVISED VERSION)\n" ++
      section_rule ++ "\n\n"
  else
    "\n" ++ section_rule ++
      "\n                    JOB APPLICATION PACKAGE\n" ++
      section_rule ++ "\n\n"

/-- Cover-letter section banner (agent.py lines 180-182). -/
def cover_letter_banner : String :=
  "\n" ++ section_rule ++ "\n                        COVER LETTER\n" ++
    section_rule ++ "\n\n"

/-- Optimized-bullets section banner (agent.py lines 186-188). -/
def bullets_banner : String :=
  "\n\n" ++ section_rule ++
    "\n                   OPTIMIZED RESUME BULLETS\n" ++
    section_rule ++ "\n\n"

/-- Interview-preparation section banner (agent.py lines 192-194). -/
def interview_banner : String :=
  "\n\n" ++ section_rule ++
    "\n                    INTERVIEW PREPARATION\n" ++
    section_rule ++ "\n\n"

/-- Role-expectations section banner (agent.py lines 198-200). -/
def role_banner : String :=
  "\n\n" ++ section_rule ++
    "\n                      ROLE EXPECTATIONS\n" ++
    section_rule ++ "\n\n"

/-- Skill-growth-plan section banner (agent.py lines 204-206). -/
def learning_banner : String :=
  "\n\n" ++ section_rule ++
    "\n                      SKILL GROWTH PLAN\n" ++
    section_rule ++ "\n\n"

/-- Footer banner; the revised variant carries the extra
Self-Reviewed and Revised line (agent.py lines 210-214 and 316-321). -/
def footer_banner (revised : Bool) : String :=
  if revised then
    "\n\n" ++ section_rule ++
      "\n                    Generated by Resume Job Agent\n                    Powered by LangGraph + Gemini\n                         Self-Reviewed & Revised\n" ++
      section_rule ++ "\n"
  else
    "\n\n" ++ section_rule ++
      "\n                    Generated by Resume Job Agent\n                    Powered by LangGraph + Gemini\n" ++
      section_rule ++ "\n"

/-- The pieces of the report template of agent.compile_output_node
(agent.py lines 167-214), shared verbatim by agent.revise_output_node
(agent.py lines 272-321) up to the revised header and footer.  The f-string
of the source is this list concatenated in order. -/
def report_parts (revised : Bool) (state : AgentState) : List String :=
  [ header_banner revised,
    "📊 ATS MATCH SCORE: " ++ toString state.ats_score ++ "/100\n\n",
    "✅ MATCHED SKILLS:\n" ++ bullet_lines state.matched_skills ++ "\n\n",
    "❌ SKILLS GAP:\n" ++ bullet_lines state.missing_skills ++ "\n",
    improvement_section state.improvement_suggestions,
    cover_letter_banner,
    state.cover_letter,
    bullets_banner,
    state.optimized_bullets,
    interview_banner,
    state.interview_questions,
    role_banner,
    state.role_expectations,
    learning_banner,
    state.learning_plan,
    footer_banner revised ]

/-- The full report string assembled from the parts. -/
def compile_report (revised : Bool) (state : AgentState) : String :=
  String.join (report_parts revised state)

/-- agent.compile_output_node (agent.py lines 142-218): generate the
learning plan (with its own try/except), then build the report. -/
def compile_output_node (state : AgentState)
    (genLearning : Except String String) : AgentState :=
  let state := match genLearning with
    | Except.ok learning_plan => { state with learning_plan := learning_plan }
    | Except.error e =>
        { state with learning_plan :=
            "❌ Learning plan generation failed: " ++ e }
  { state with final_output := compile_report false state }

/-- agent.self_review_node (agent.py lines 221-237). -/
def self_review_node (state : AgentState)
    (gen : Except String String) : AgentState :=
  match gen with
  | Except.ok review_notes => { state with review_notes := review_notes }
  | Except.error e =>
      { state with review_notes := "Self-review skipped due to error: " ++ e }

/-- tools.revise_content (tools.py lines 479-568): two sequential service
calls; an exception in either aborts the whole call (Python raises before
the result dict is built), which the bind of Except mirrors. -/
def revise_content (cover_letter optimized_bullets review_notes resume jd : String)
    (genCover genBullets : Except String String) :
    Except String (String × String) :=
  match genCover with
  | Except.error e => Except.error e
  | Except.ok revised_cover_letter =>
      match genBullets with
      | Except.error e => Except.error e
      | Except.ok revised_bullets =>
          Except.ok (revised_cover_letter, revised_bullets)

/-- agent.revise_output_node (agent.py lines 240-325): replace cover letter
and bullets only if revise_content returns, keep the originals on any
exception, then rebuild the report with the revised template. -/
def revise_output_node (state : AgentState)
    (genCover genBullets : Except String String) : AgentState :=
  let state :=
    match revise_content state.cover_letter state.optimized_bullets
        state.review_notes state.resume state.jd genCover genBullets with
    | Except.ok revisions =>
        { state with cover_letter := revisions.1,
                     optimized_bullets := revisions.2 }
    | Except.error _ => state
  { state with final_output := compile_report true state }

/-- State after parse and ats_analysis (the entry edge
parse -> ats_analysis of agent.create_agent, agent.py lines 356-357). -/
def state_after_ats (resume_text jd_text company_name : String)
    (o : Oracles) : AgentState :=
  ats_analysis_node (parse_node (initial_state resume_text jd_text company_name))
    o.atsExtract

/-- State after the conditional edge out of ats_analysis
(agent.py lines 360-370): resume_improvement runs exactly when
route_after_ats chooses it, then both branches converge. -/
def state_after_route (resume_text jd_text company_name : String)
    (o : Oracles) : AgentState :=
  let s := state_after_ats resume_text jd_text company_name o
  if route_after_ats s.ats_score = "resume_improvement" then
    resume_improvement_node s o.improveGen
  else s

/-- State after the generate_cover_letter node (agent.py line 371). -/
def state_after_cover (resume_text jd_text company_name : String)
    (o : Oracles) : AgentState :=
  cover_letter_node (state_after_route resume_text jd_text company_name o)
    o.coverGen

/-- State after the resume_optimizer node (agent.py line 372). -/
def state_after_optimizer (resume_text jd_text company_name : String)
    (o : Oracles) : AgentState :=
  resume_optimizer_node (state_after_cover resume_text jd_text company_name o)
    o.bulletsGen

/-- State after the interview_prep node (agent.py line 373). -/
def state_after_interview (resume_text jd_text company_name : String)
    (o : Oracles) : AgentState :=
  interview_prep_node (state_after_optimizer resume_text jd_text company_name o)
    o.interviewGen o.roleGen

/-- State after the compile_output node (agent.py line 376). -/
def state_after_compile (resume_text jd_text company_name : String)
    (o : Oracles) : AgentState :=
  compile_output_node (state_after_interview resume_text jd_text company_name o)
    o.learningGen

/-- State after self_review, just before the final revise_output node
(agent.py line 377). -/
def pipeline_before_revision (resume_text jd_text company_name : String)
    (o : Oracles) : AgentState :=
  self_review_node (state_after_compile resume_text jd_text company_name o)
    o.reviewGen

/-- Terminal state of the graph: revise_output is the last node before END
(agent.py line 378). -/
def run_pipeline (resume_text jd_text company_name : String)
    (o : Oracles) : AgentState :=
  revise_output_node (pipeline_before_revision resume_text jd_text company_name o)
    o.reviseCoverGen o.reviseBulletsGen

/-- agent.run_agent (agent.py lines 385-419): invoke the graph and return
the final_output field of the terminal state, a plain string. -/
def run_agent (resume_text jd_text company_name : String)
    (o : Oracles) : String :=
  (run_pipeline resume_text jd_text company_name o).final_output

/-- parser.extract_text_from_pdf (parser.py lines 7-24).  The oracle stands
for PyPDF2 reading and page-text concatenation, which may raise; the source
catches every exception and returns the error-describing string instead. -/
def extract_text_from_pdf (pdf_read : Except String String) : String :=
  match pdf_read with
  | Except.ok text => text.trim
  | Except.error e => "Error extracting PDF: " ++ e

/-- parser.parse_documents (parser.py lines 27-44). -/
def parse_documents (resume_read jd_read : Except String String) :
    String × String :=
  (extract_text_from_pdf resume_read, extract_text_from_pdf jd_read)

/-- Dynamic value model for the result of run_agent as seen by app.py:
a Python value that is either a plain string or a dict of sections. -/
inductive PyVal where
  | pyStr (s : String)
  | pyDict (entries : List (String × String))
  deriving DecidableEq

/-- Message of the AttributeError raised when `.get` is accessed on a str. -/
def attr_err_get : String :=
  "AttributeError: str object has no attribute get"

/-- Python `result.get(key, default)`: attribute lookup on a str raises
AttributeError; on a dict it is a defaulted lookup. -/
def py_get (v : PyVal) (key dflt : String) : Except String String :=
  match v with
  | PyVal.pyStr _ => Except.error attr_err_get
  | PyVal.pyDict entries => Except.ok ((entries.lookup key).getD dflt)

/-- Python `result[key]` with a string key: raises TypeError on a str,
KeyError on a dict missing the key. -/
def py_index (v : PyVal) (key : String) : Except String String :=
  match v with
  | PyVal.pyStr _ => Except.error "TypeError: string indices must be integers"
  | PyVal.pyDict entries =>
      match entries.lookup key with
      | some value => Except.ok value
      | none => Except.error ("KeyError: " ++ key)

/-- The dynamic value run_agent hands to app.process_application: always a
plain string (agent.py line 419 returns final_state of final_output). -/
def run_agent_result (resume_text jd_text company_name : String)
    (o : Oracles) : PyVal :=
  PyVal.pyStr (run_agent resume_text jd_text company_name o)

/-- app.html_wrap (app.py lines 129-143). -/
def html_wrap (content : String) : String :=
  if content = "" || content.startsWith "❌" then
    "<div style=\x27padding: 20px; color: #888;\x27>" ++
      (if content = "" then "No content available." else content) ++ "</div>"
  else
    "<div style=\x27padding: 20px; line-height: 1.6; white-space: pre-wrap;\x27>" ++
      content ++ "</div>"

/-- Catch-all error tuple returned by app.process_application
(app.py lines 78-80), as the ordered list of its ten outputs. -/
def error_outputs (e : String) : List String :=
  [ "❌ Error: " ++ e ++ "\n\nPlease check your API key and try again.",
    html_wrap "", "", html_wrap "", html_wrap "", html_wrap "", html_wrap "",
    "", "", "" ]

/-- app.process_application (app.py lines 33-80): parse the documents, run
the agent, then read named sections off the result with `.get` and
indexing; any exception inside the try block yields the catch-all error
tuple.  The ten outputs are modelled as an ordered list. -/
def process_application (resume_read jd_read : Except String String)
    (company_name : String) (o : Oracles) : List String :=
  let docs := parse_documents resume_read jd_read
  let company := if company_name = "" then "the company" else company_name
  let result := run_agent_result docs.1 docs.2 company o
  match py_get result "full_report" "" with
  | Except.error e => error_outputs e
  | Except.ok _full_report =>
      match py_index result "ats_section" with
      | Except.error e => error_outputs e
      | Except.ok ats_section =>
          match py_index result "resume_suggestions_section",
              py_index result "cover_letter_section",
              py_index result "bullets_section",
              py_index result "interview_section",
              py_index result "role_expectations_section",
              py_index result "skill_growth_section",
              py_index result "full_report" with
          | Except.ok resume_suggestions, Except.ok cover_letter_section,
            Except.ok bullets_section, Except.ok interview_section,
            Except.ok role_expectations_section, Except.ok skill_growth_section,
            Except.ok full_report =>
              [ ats_section, html_wrap resume_suggestions, cover_letter_section,
                html_wrap bullets_section, html_wrap interview_section,
                html_wrap role_expectations_section, html_wrap skill_growth_section,
                full_report, docs.1, docs.2 ]
          | Except.error e, _, _, _, _, _, _ => error_outputs e
          | _, Except.error e, _, _, _, _, _ => error_outputs e
          | _, _, Except.error e, _, _, _, _ => error_outputs e
          | _, _, _, Except.error e, _, _, _ => error_outputs e
          | _, _, _, _, Except.error e, _, _ => error_outputs e
          | _, _, _, _, _, Except.error e, _ => error_outputs e
          | _, _, _, _, _, _, Except.error e => error_outputs e

/-! Helper lemmas shared by the claim theorems. -/

lemma route_after_ats_eq_improvement (s : Int) (h : s < 60) :
    route_after_ats s = "resume_improvement" := by
  simp [route_after_ats, h]

lemma route_after_ats_eq_cover (s : Int) (h : ¬ s < 60) :
    route_after_ats s = "generate_cover_letter" := by
  simp [route_after_ats, h]

lemma mem_matched_skills (resume_skills jd_skills : List String) (x : String) :
    x ∈ (calculate_ats_score resume_skills jd_skills).2.1 ↔
      x ∈ jd_skills ∧ lower x ∈ resume_skills.map lower := by
  simp only [calculate_ats_score, List.contains, List.elem_eq_mem, decide_eq_true_eq,
    List.mem_filter, List.mem_map]
  constructor
  · rintro ⟨hjd, ⟨_, hres⟩⟩
    exact ⟨hjd, hres⟩
  · rintro ⟨hjd, hres⟩
    exact ⟨hjd, ⟨⟨x, hjd, rfl⟩, hres⟩⟩

lemma mem_missing_skills (resume_skills jd_skills : List String) (x : String) :
    x ∈ (calculate_ats_score resume_skills jd_skills).2.2 ↔
      x ∈ jd_skills ∧ ¬ lower x ∈ resume_skills.map lower := by
  simp only [calculate_ats_score, List.contains, List.elem_eq_mem, decide_eq_true_eq,
    List.mem_filter, List.mem_map, Bool.not_eq_true']
  constructor
  · rintro ⟨hjd, ⟨_, hres⟩⟩
    simp only [decide_eq_false_iff_not] at hres
    exact ⟨hjd, hres⟩
  · rintro ⟨hjd, hres⟩
    refine ⟨hjd, ⟨⟨x, hjd, rfl⟩, ?_⟩⟩
    simpa using hres

/-! Per-node frame lemmas: each pipeline node writes only its own fields.
Proofs hold by computation once the node's oracle is case-split. -/

lemma improvement_keeps_ats (s : AgentState) (g : Except String String) :
    (resume_improvement_node s g).ats_score = s.ats_score := by
  cases g <;> rfl

lemma improvement_keeps_matched (s : AgentState) (g : Except String String) :
    (resume_improvement_node s g).matched_skills = s.matched_skills := by
  cases g <;> rfl

lemma improvement_keeps_missing (s : AgentState) (g : Except String String) :
    (resume_improvement_node s g).missing_skills = s.missing_skills := by
  cases g <;> rfl

lemma cover_keeps_ats (s : AgentState) (g : Except String String) :
    (cover_letter_node s g).ats_score = s.ats_score := by
  cases g <;> rfl

lemma cover_keeps_matched (s : AgentState) (g : Except String String) :
    (cover_letter_node s g).matched_skills = s.matched_skills := by
  cases g <;> rfl

lemma cover_keeps_missing (s : AgentState) (g : Except String String) :
    (cover_letter_node s g).missing_skills = s.missing_skills := by
  cases g <;> rfl

lemma cover_keeps_suggestions (s : AgentState) (g : Except String String) :
    (cover_letter_node s g).improvement_suggestions = s.improvement_suggestions := by
  cases g <;> rfl

lemma optimizer_keeps_ats (s : AgentState) (g : Except String String) :
    (resume_optimizer_node s g).ats_score = s.ats_score := by
  cases g <;> rfl

lemma optimizer_keeps_matched (s : AgentState) (g : Except String String) :
    (resume_optimizer_node s g).matched_skills = s.matched_skills := by
  cases g <;> rfl

lemma optimizer_keeps_missing (s : AgentState) (g : Except String String) :
    (resume_optimizer_node s g).missing_skills = s.missing_skills := by
  cases g <;> rfl

lemma optimizer_keeps_suggestions (s : AgentState) (g : Except String String) :
    (resume_optimizer_node s g).improvement_suggestions = s.improvement_suggestions := by
  cases g <;> rfl

lemma optimizer_keeps_cover (s : AgentState) (g : Except String String) :
    (resume_optimizer_node s g).cover_letter = s.cover_letter := by
  cases g <;> rfl

lemma interview_keeps_ats (s : AgentState) (g1 g2 : Except String String) :
    (interview_prep_node s g1 g2).ats_score = s.ats_score := by
  cases g1 <;> cases g2 <;> rfl

lemma interview_keeps_matched (s : AgentState) (g1 g2 : Except String String) :
    (interview_prep_node s g1 g2).matched_skills = s.matched_skills := by
  cases g1 <;> cases g2 <;> rfl

lemma interview_keeps_missing (s : AgentState) (g1 g2 : Except String String) :
    (interview_prep_node s g1 g2).missing_skills = s.missing_skills := by
  cases g1 <;> cases g2 <;> rfl

lemma interview_keeps_suggestions (s : AgentState) (g1 g2 : Except String String) :
    (interview_prep_node s g1 g2).improvement_suggestions = s.improvement_suggestions := by
  cases g1 <;> cases g2 <;> rfl

lemma interview_keeps_cover (s : AgentState) (g1 g2 : Except String String) :
    (interview_prep_node s g1 g2).cover_letter = s.cover_letter := by
  cases g1 <;> cases g2 <;> rfl

lemma interview_keeps_bullets (s : AgentState) (g1 g2 : Except String String) :
    (interview_prep_node s g1 g2).optimized_bullets = s.optimized_bullets := by
  cases g1 <;> cases g2 <;> rfl

lemma compile_keeps_ats (s : AgentState) (g : Except String String) :
    (compile_output_node s g).ats_score = s.ats_score := by
  cases g <;> rfl

lemma compile_keeps_matched (s : AgentState) (g : Except String String) :
    (compile_output_node s g).matched_skills = s.matched_skills := by
  cases g <;> rfl

lemma compile_keeps_missing (s : AgentState) (g : Except String String) :
    (compile_output_node s g).missing_skills = s.missing_skills := by
  cases g <;> rfl

lemma compile_keeps_suggestions (s : AgentState) (g : Except String String) :
    (compile_output_node s g).improvement_suggestions = s.improvement_suggestions := by
  cases g <;> rfl

lemma compile_keeps_cover (s : AgentState) (g : Except String String) :
    (compile_output_node s g).cover_letter = s.cover_letter := by
  cases g <;> rfl

lemma compile_keeps_bullets (s : AgentState) (g : Except String String) :
    (compile_output_node s g).optimized_bullets = s.optimized_bullets := by
  cases g <;> rfl

lemma compile_keeps_interview (s : AgentState) (g : Except String String) :
    (compile_output_node s g).interview_questions = s.interview_questions := by
  cases g <;> rfl

lemma compile_keeps_role (s : AgentState) (g : Except String String) :
    (compile_output_node s g).role_expectations = s.role_expectations := by
  cases g <;> rfl

lemma review_keeps_ats (s : AgentState) (g : Except String String) :
    (self_review_node s g).ats_score = s.ats_score := by
  cases g <;> rfl

lemma review_keeps_matched (s : AgentState) (g : Except String String) :
    (self_review_node s g).matched_skills = s.matched_skills := by
  cases g <;> rfl

lemma review_keeps_missing (s : AgentState) (g : Except String String) :
    (self_review_node s g).missing_skills = s.missing_skills := by
  cases g <;> rfl

lemma review_keeps_suggestions (s : AgentState) (g : Except String String) :
    (self_review_node s g).improvement_suggestions = s.improvement_suggestions := by
  cases g <;> rfl

lemma review_keeps_cover (s : AgentState) (g : Except String String) :
    (self_review_node s g).cover_letter = s.cover_letter := by
  cases g <;> rfl

lemma review_keeps_bullets (s : AgentState) (g : Except String String) :
    (self_review_node s g).optimized_bullets = s.optimized_bullets := by
  cases g <;> rfl

lemma review_keeps_interview (s : AgentState) (g : Except String String) :
    (self_review_node s g).interview_questions = s.interview_questions := by
  cases g <;> rfl

lemma review_keeps_role (s : AgentState) (g : Except String String) :
    (self_review_node s g).role_expectations = s.role_expectations := by
  cases g <;> rfl

lemma review_keeps_learning (s : AgentState) (g : Except String String) :
    (self_review_node s g).learning_plan = s.learning_plan := by
  cases g <;> rfl

lemma revise_keeps_ats (s : AgentState) (gC gB : Except String String) :
    (revise_output_node s gC gB).ats_score = s.ats_score := by
  cases gC <;> cases gB <;> rfl

lemma revise_keeps_matched (s : AgentState) (gC gB : Except String String) :
    (revise_output_node s gC gB).matched_skills = s.matched_skills := by
  cases gC <;> cases gB <;> rfl

lemma revise_keeps_missing (s : AgentState) (gC gB : Except String String) :
    (revise_output_node s gC gB).missing_skills = s.missing_skills := by
  cases gC <;> cases gB <;> rfl

lemma revise_keeps_suggestions (s : AgentState) (gC gB : Except String String) :
    (revise_output_node s gC gB).improvement_suggestions = s.improvement_suggestions := by
  cases gC <;> cases gB <;> rfl

lemma revise_keeps_interview (s : AgentState) (gC gB : Except String String) :
    (revise_output_node s gC gB).interview_questions = s.interview_questions := by
  cases gC <;> cases gB <;> rfl

lemma revise_keeps_role (s : AgentState) (gC gB : Except String String) :
    (revise_output_node s gC gB).role_expectations = s.role_expectations := by
  cases gC <;> cases gB <;> rfl

lemma revise_keeps_learning (s : AgentState) (gC gB : Except String String) :
    (revise_output_node s gC gB).learning_plan = s.learning_plan := by
  cases gC <;> cases gB <;> rfl

lemma revise_keeps_review_notes (s : AgentState) (gC gB : Except String String) :
    (revise_output_node s gC gB).review_notes = s.review_notes := by
  cases gC <;> cases gB <;> rfl

/-- On a failed revision service call the revise node keeps both revisable
fields unchanged (agent.py lines 244-258). -/
lemma revise_error_keeps_content (s : AgentState) (gC gB : Except String String)
    (h : (∃ e, gC = Except.error e) ∨ (∃ e, gB = Except.error e)) :
    (revise_output_node s gC gB).cover_letter = s.cover_letter ∧
    (revise_output_node s gC gB).optimized_bullets = s.optimized_bullets := by
  cases gC <;> cases gB
  · exact ⟨rfl, rfl⟩
  · exact ⟨rfl, rfl⟩
  · constructor <;> simp only [revise_output_node, revise_content]
  · rcases h with ⟨e, he⟩ | ⟨e, he⟩ <;> simp at he

/-- The final_output written by the revise node is the revised-template
report of the terminal state itself. -/
lemma revise_final_output (s : AgentState) (gC gB : Except String String) :
    (revise_output_node s gC gB).final_output =
      compile_report true (revise_output_node s gC gB) := by
  cases gC <;> cases gB <;> rfl

lemma route_branch_keeps_ats (r j c : String) (o : Oracles) :
    (state_after_route r j c o).ats_score = (state_after_ats r j c o).ats_score := by
  unfold state_after_route
  dsimp only
  split
  · exact improvement_keeps_ats _ _
  · rfl

lemma route_branch_keeps_matched (r j c : String) (o : Oracles) :
    (state_after_route r j c o).matched_skills =
      (state_after_ats r j c o).matched_skills := by
  unfold state_after_route
  dsimp only
  split
  · exact improvement_keeps_matched _ _
  · rfl

lemma route_branch_keeps_missing (r j c : String) (o : Oracles) :
    (state_after_route r j c o).missing_skills =
      (state_after_ats r j c o).missing_skills := by
  unfold state_after_route
  dsimp only
  split
  · exact improvement_keeps_missing _ _
  · rfl

/-- Ats fields of the terminal state are the ones set by ats_analysis. -/
lemma run_pipeline_ats_fields (r j c : String) (o : Oracles) :
    (run_pipeline r j c o).ats_score = (state_after_ats r j c o).ats_score ∧
    (run_pipeline r j c o).matched_skills = (state_after_ats r j c o).matched_skills ∧
    (run_pipeline r j c o).missing_skills = (state_after_ats r j c o).missing_skills := by
  unfold run_pipeline pipeline_before_revision state_after_compile
    state_after_interview state_after_optimizer state_after_cover
  rw [revise_keeps_ats, revise_keeps_matched, revise_keeps_missing,
    review_keeps_ats, review_keeps_matched, review_keeps_missing,
    compile_keeps_ats, compile_keeps_matched, compile_keeps_missing,
    interview_keeps_ats, interview_keeps_matched, interview_keeps_missing,
    optimizer_keeps_ats, optimizer_keeps_matched, optimizer_keeps_missing,
    cover_keeps_ats, cover_keeps_matched, cover_keeps_missing]
  exact ⟨route_branch_keeps_ats r j c o, route_branch_keeps_matched r j c o,
    route_branch_keeps_missing r j c o⟩

/-- The improvement_suggestions field of the terminal state is the one set
right after the routing branch. -/
lemma run_pipeline_suggestions (r j c : String) (o : Oracles) :
    (run_pipeline r j c o).improvement_suggestions =
      (state_after_route r j c o).improvement_suggestions := by
  unfold run_pipeline pipeline_before_revision state_after_compile
    state_after_interview state_after_optimizer state_after_cover
  rw [revise_keeps_suggestions, review_keeps_suggestions, compile_keeps_suggestions,
    interview_keeps_suggestions, optimizer_keeps_suggestions, cover_keeps_suggestions]

/-- The interview and role fields of the terminal state are the ones set by
the interview_prep node. -/
lemma run_pipeline_interview_role (r j c : String) (o : Oracles) :
    (run_pipeline r j c o).interview_questions =
      (state_after_interview r j c o).interview_questions ∧
    (run_pipeline r j c o).role_expectations =
      (state_after_interview r j c o).role_expectations := by
  unfold run_pipeline pipeline_before_revision state_after_compile
  rw [revise_keeps_interview, revise_keeps_role, review_keeps_interview,
    review_keeps_role, compile_keeps_interview, compile_keeps_role]
  exact ⟨rfl, rfl⟩

/-- The learning_plan field of the terminal state is the one set by the
compile_output node. -/
lemma run_pipeline_learning (r j c : String) (o : Oracles) :
    (run_pipeline r j c o).learning_plan =
      (state_after_compile r j c o).learning_plan := by
  unfold run_pipeline pipeline_before_revision
  rw [revise_keeps_learning, review_keeps_learning]

/-- The review_notes field of the terminal state is the one set by the
self_review node. -/
lemma run_pipeline_review_notes (r j c : String) (o : Oracles) :
    (run_pipeline r j c o).review_notes =
      (pipeline_before_revision r j c o).review_notes := by
  unfold run_pipeline
  rw [revise_keeps_review_notes]

/-- The cover letter and bullets entering the revise node are the ones set
by their own generation nodes. -/
lemma pre_revision_cover_bullets (r j c : String) (o : Oracles) :
    (pipeline_before_revision r j c o).cover_letter =
      (state_after_cover r j c o).cover_letter ∧
    (pipeline_before_revision r j c o).optimized_bullets =
      (state_after_optimizer r j c o).optimized_bullets := by
  constructor
  · unfold pipeline_before_revision state_after_compile state_after_interview
      state_after_optimizer
    rw [review_keeps_cover, compile_keeps_cover, interview_keeps_cover,
      optimizer_keeps_cover]
  · unfold pipeline_before_revision state_after_compile state_after_interview
    rw [review_keeps_bullets, compile_keeps_bullets, interview_keeps_bullets]

/-! Per-node lemmas about the fields each node writes, in particular the
documented placeholder substituted when the node's service call fails. -/

lemma ats_node_error_fields (s : AgentState) (e : String) :
    (ats_analysis_node s (Except.error e)).ats_score = 50 ∧
    (ats_analysis_node s (Except.error e)).matched_skills = ["Error analyzing skills"] ∧
    (ats_analysis_node s (Except.error e)).missing_skills = ["ATS analysis failed: " ++ e] :=
  ⟨rfl, rfl, rfl⟩

lemma ats_node_keeps_suggestions (s : AgentState)
    (g : Except String (List String × List String)) :
    (ats_analysis_node s g).improvement_suggestions = s.improvement_suggestions := by
  rcases g with e | ⟨rs, js⟩ <;> rfl

lemma improvement_node_error (s : AgentState) (e : String) :
    (resume_improvement_node s (Except.error e)).improvement_suggestions =
      "❌ Improvement suggestions failed: " ++ e := rfl

lemma cover_node_error (s : AgentState) (e : String) :
    (cover_letter_node s (Except.error e)).cover_letter = cover_letter_failed e := rfl

lemma optimizer_node_error (s : AgentState) (e : String) :
    (resume_optimizer_node s (Except.error e)).optimized_bullets =
      "❌ Resume optimization failed: " ++ e := rfl

lemma interview_node_error (s : AgentState) (g2 : Except String String) (e : String) :
    (interview_prep_node s (Except.error e) g2).interview_questions =
      "❌ Interview questions generation failed: " ++ e := by
  cases g2 <;> rfl

lemma role_node_error (s : AgentState) (g1 : Except String String) (e : String) :
    (interview_prep_node s g1 (Except.error e)).role_expectations =
      "❌ Role research failed: " ++ e := by
  cases g1 <;> rfl

lemma learning_node_error (s : AgentState) (e : String) :
    (compile_output_node s (Except.error e)).learning_plan =
      "❌ Learning plan generation failed: " ++ e := rfl

lemma review_node_error (s : AgentState) (e : String) :
    (self_review_node s (Except.error e)).review_notes =
      "Self-review skipped due to error: " ++ e := rfl

/-! Claim theorems. -/

/-- C1 counterexample: the claim says every score s with 70 <= s < 90 runs
the improvement-suggestion step before cover-letter generation, but at
score 75 route_after_ats routes straight to cover-letter generation. -/
theorem route_three_band_refuted :
    route_after_ats 75 = "generate_cover_letter" ∧
    route_after_ats 75 ≠ "resume_improvement" := by
  constructor <;> decide

/-- C1 (amended): route_after_ats is a total function on scores that
partitions them into exactly two bands at threshold 60 with no gap and no
overlap: below 60 it routes to the single improvement-suggestion node,
at 60 and above it routes directly to cover-letter generation; there is no
third deep-restructuring band. -/
theorem route_two_band_partition (s : Int) :
    (s < 60 → route_after_ats s = "resume_improvement") ∧
    (60 ≤ s → route_after_ats s = "generate_cover_letter") ∧
    (route_after_ats s = "resume_improvement" ∨
      route_after_ats s = "generate_cover_letter") ∧
    ¬ (route_after_ats s = "resume_improvement" ∧
       route_after_ats s = "generate_cover_letter") := by
  refine ⟨fun h => route_after_ats_eq_improvement s h,
          fun h => route_after_ats_eq_cover s (by omega), ?_, ?_⟩
  · by_cases h : s < 60
    · exact Or.inl (route_after_ats_eq_improvement s h)
    · exact Or.inr (route_after_ats_eq_cover s h)
  · rintro ⟨h1, h2⟩
    exact absurd (h1.symm.trans h2) (by decide)

/-- Witness for the amended C1 theorem at the boundary scores 59 and 60. -/
theorem route_two_band_partition_witness :
    route_after_ats 59 = "resume_improvement" ∧
    route_after_ats 60 = "generate_cover_letter" :=
  ⟨(route_two_band_partition 59).1 (by decide),
   (route_two_band_partition 60).2.1 (by decide)⟩

/-- C2 counterexample: on resume skills Python, SQL and job-description
skills Python, SQL, Kubernetes the code computes score 66 (Python int()
truncation of the ratio), while the claim asserts round(100 times 2/3),
which is 67. -/
theorem ats_score_round_refuted :
    (calculate_ats_score ["Python", "SQL"] ["Python", "SQL", "Kubernetes"]).1 = 66 ∧
    spec_round_score 2 3 = 67 ∧ (66 : Int) ≠ 67 := by
  refine ⟨by decide, ?_, by decide⟩
  rw [spec_round_score, round_eq]
  norm_num

/-- C2 (amended): for any resume and job-description skill lists the score
is int((matched / jd) * 100) evaluated in IEEE binary64 floating point
(correctly rounded division, correctly rounded multiplication by 100, then
truncation toward zero) clamped to [0,100]; it is 50 when the
job-description skill list is empty; the documented example yields 66 (not
round = 67); and the binary64 evaluation differs from exact floor division
at reachable counts, e.g. 29 matched of 50 scores 57 under the code while
exact floor gives 58. -/
theorem ats_score_float_formula (resume_skills jd_skills : List String) :
    (jd_skills = [] → (calculate_ats_score resume_skills jd_skills).1 = 50) ∧
    (jd_skills ≠ [] →
      (calculate_ats_score resume_skills jd_skills).1 =
        min 100 (py_float_score
          (calculate_ats_score resume_skills jd_skills).2.1.length
          jd_skills.length)) ∧
    (calculate_ats_score resume_skills jd_skills).1 ≤ 100 ∧
    (calculate_ats_score ["Python", "SQL"] ["Python", "SQL", "Kubernetes"]).1 = 66 ∧
    (py_float_score 29 50 = 57 ∧ 29 * 100 / 50 = 58) := by
  refine ⟨?_, ?_, ?_, by decide, by decide⟩
  · intro h
    subst h
    rfl
  · intro h
    have hl : 0 < jd_skills.length := List.length_pos.mpr h
    simp [calculate_ats_score, hl]
  · by_cases h : 0 < jd_skills.length <;> simp [calculate_ats_score, h]

/-- Witness for the amended C2 theorem on the nonempty documented example. -/
theorem ats_score_float_formula_witness :
    (["Python", "SQL", "Kubernetes"] : List String) ≠ [] ∧
    (calculate_ats_score ["Python", "SQL"] ["Python", "SQL", "Kubernetes"]).1 =
      min 100
        (py_float_score
          (calculate_ats_score ["Python", "SQL"] ["Python", "SQL", "Kubernetes"]).2.1.length
          3) :=
  ⟨by decide,
   (ats_score_float_formula ["Python", "SQL"]
     ["Python", "SQL", "Kubernetes"]).2.1 (by decide)⟩

/-- C3: matched_skills is a sublist-membership subset of jd_skills,
missing_skills is exactly jd_skills minus matched_skills, the two lists are
disjoint, and membership in matched_skills is case-insensitive comparison
against the resume skills while the entries keep the casing of the
job-description list (they are drawn from jd_skills itself). -/
theorem ats_skill_partition (resume_skills jd_skills : List String) :
    (∀ x, x ∈ (calculate_ats_score resume_skills jd_skills).2.1 → x ∈ jd_skills) ∧
    (∀ x, x ∈ (calculate_ats_score resume_skills jd_skills).2.2 ↔
      (x ∈ jd_skills ∧ x ∉ (calculate_ats_score resume_skills jd_skills).2.1)) ∧
    (∀ x, ¬ (x ∈ (calculate_ats_score resume_skills jd_skills).2.1 ∧
             x ∈ (calculate_ats_score resume_skills jd_skills).2.2)) ∧
    (∀ x, x ∈ (calculate_ats_score resume_skills jd_skills).2.1 ↔
      (x ∈ jd_skills ∧ lower x ∈ resume_skills.map lower)) := by
  refine ⟨?_, ?_, ?_, fun x => mem_matched_skills resume_skills jd_skills x⟩
  · intro x hx
    exact ((mem_matched_skills resume_skills jd_skills x).1 hx).1
  · intro x
    rw [mem_missing_skills]
    constructor
    · rintro ⟨hjd, hni⟩
      exact ⟨hjd, fun hm => hni ((mem_matched_skills _ _ x).1 hm).2⟩
    · rintro ⟨hjd, hnm⟩
      exact ⟨hjd, fun hl => hnm ((mem_matched_skills _ _ x).2 ⟨hjd, hl⟩)⟩
  · rintro x ⟨hm, hmis⟩
    exact ((mem_missing_skills _ _ x).1 hmis).2 ((mem_matched_skills _ _ x).1 hm).2

/-- Witness for C3 at the documented example lists. -/
theorem ats_skill_partition_witness :
    "Python" ∈ (calculate_ats_score ["Python", "SQL"] ["Python", "SQL", "Kubernetes"]).2.1 ∧
    "Python" ∈ (["Python", "SQL", "Kubernetes"] : List String) :=
  ⟨by decide,
   (ats_skill_partition ["Python", "SQL"] ["Python", "SQL", "Kubernetes"]).1
     "Python" (by decide)⟩

/-- C4 counterexample: at ATS score 70 (which is below 85) the pipeline
makes zero calls to the Generation Service for improvement suggestions,
because route_after_ats skips the resume_improvement node at every score
at or above 60; the claim asserts exactly one call for every score below 85. -/
theorem pipeline_improvement_call_at_70 :
    pipeline_improvement_calls 70 = 0 ∧ (70 : Int) < 85 := by
  constructor <;> decide

/-- C4 (amended): in a pipeline run the improvement-suggestion generator is
invoked with exactly one Generation Service call when the ATS score is
below 60 (the node omits the ats_score argument, so the generator runs its
bottom tier), and with zero calls when the score is at least 60 (the node
itself is skipped). -/
theorem pipeline_improvement_call_bands (s : Int) :
    (s < 60 → pipeline_improvement_calls s = 1) ∧
    (60 ≤ s → pipeline_improvement_calls s = 0) := by
  constructor
  · intro h
    simp only [pipeline_improvement_calls, route_after_ats_eq_improvement s h]
    decide
  · intro h
    simp only [pipeline_improvement_calls, route_after_ats_eq_cover s (by omega)]
    decide

/-- Witness for the amended C4 theorem at the boundary scores 59 and 60. -/
theorem pipeline_improvement_call_bands_witness :
    pipeline_improvement_calls 59 = 1 ∧ pipeline_improvement_calls 60 = 0 :=
  ⟨(pipeline_improvement_call_bands 59).1 (by decide),
   (pipeline_improvement_call_bands 60).2 (by decide)⟩

/-- C5: generate_resume_improvements is a pure function of the score tier:
at ats_score at least 90 it returns the empty string with zero Generation
Service calls, between 85 and 89 it returns the fixed confirmation sentence
with zero calls, and below 85 it makes exactly one call whose reply is
returned verbatim. -/
theorem improvement_tier_policy (resume jd : String)
    (matched_skills missing_skills : List String) (ats_score : Int)
    (gen : Except String String) :
    (90 ≤ ats_score →
      generate_resume_improvements resume jd matched_skills missing_skills
          ats_score gen = Except.ok "" ∧
        improvement_call_count ats_score = 0) ∧
    (85 ≤ ats_score → ats_score < 90 →
      generate_resume_improvements resume jd matched_skills missing_skills
          ats_score gen = Except.ok no_major_improvements_msg ∧
        improvement_call_count ats_score = 0) ∧
    (ats_score < 85 →
      generate_resume_improvements resume jd matched_skills missing_skills
          ats_score gen = gen ∧
        improvement_call_count ats_score = 1) := by
  refine ⟨?_, ?_, ?_⟩
  · intro h
    constructor <;> simp [generate_resume_improvements, improvement_call_count, h]
  · intro h1 h2
    have h3 : ¬ ats_score ≥ 90 := by omega
    constructor <;>
      simp [generate_resume_improvements, improvement_call_count, h1, h3]
  · intro h
    have h1 : ¬ ats_score ≥ 90 := by omega
    have h2 : ¬ ats_score ≥ 85 := by omega
    constructor <;>
      simp [generate_resume_improvements, improvement_call_count, h1, h2]

/-- Witness for C5, one concrete score per tier. -/
theorem improvement_tier_policy_witness :
    (generate_resume_improvements "r" "j" [] [] 95 (Except.ok "x") =
        Except.ok "" ∧ improvement_call_count 95 = 0) ∧
    (generate_resume_improvements "r" "j" [] [] 87 (Except.ok "x") =
        Except.ok no_major_improvements_msg ∧ improvement_call_count 87 = 0) ∧
    (generate_resume_improvements "r" "j" [] [] 50 (Except.ok "x") =
        Except.ok "x" ∧ improvement_call_count 50 = 1) :=
  ⟨(improvement_tier_policy "r" "j" [] [] 95 (Except.ok "x")).1 (by decide),
   (improvement_tier_policy "r" "j" [] [] 87 (Except.ok "x")).2.1 (by decide) (by decide),
   (improvement_tier_policy "r" "j" [] [] 50 (Except.ok "x")).2.2 (by decide)⟩

/-- C6: if the revision step's Generation Service call fails (either of the
two calls inside revise_content raising), the cover_letter and
optimized_bullets fields of the terminal pipeline state equal their
pre-revision values exactly, with no partial mutation. -/
theorem revision_failure_preserves_content (resume_text jd_text company_name : String)
    (o : Oracles)
    (h : (∃ e, o.reviseCoverGen = Except.error e) ∨
         (∃ e, o.reviseBulletsGen = Except.error e)) :
    (run_pipeline resume_text jd_text company_name o).cover_letter =
      (pipeline_before_revision resume_text jd_text company_name o).cover_letter ∧
    (run_pipeline resume_text jd_text company_name o).optimized_bullets =
      (pipeline_before_revision resume_text jd_text company_name o).optimized_bullets := by
  unfold run_pipeline
  exact revise_error_keeps_content _ _ _ h

/-- Oracle assignment for the C6 witness: the cover-letter revision call
fails, every other service call succeeds. -/
def revise_fail_oracles : Oracles :=
  { atsExtract := Except.error "x",
    improveGen := Except.ok "S", coverGen := Except.ok "CL",
    bulletsGen := Except.ok "B", interviewGen := Except.ok "Q",
    roleGen := Except.ok "R", learningGen := Except.ok "L",
    reviewGen := Except.ok "N", reviseCoverGen := Except.error "boom",
    reviseBulletsGen := Except.ok "RB" }

/-- Witness for C6 at a concrete run whose revision call fails. -/
theorem revision_failure_preserves_content_witness :
    (∃ e, revise_fail_oracles.reviseCoverGen = Except.error e) ∧
    (run_pipeline "r" "j" "c" revise_fail_oracles).cover_letter =
      (pipeline_before_revision "r" "j" "c" revise_fail_oracles).cover_letter ∧
    (pipeline_before_revision "r" "j" "c" revise_fail_oracles).cover_letter = "CL" := by
  refine ⟨⟨"boom", rfl⟩,
    (revision_failure_preserves_content "r" "j" "c" revise_fail_oracles
      (Or.inl ⟨"boom", rfl⟩)).1, ?_⟩
  decide

/-- C7: for every combination of per-step Generation Service failures the
pipeline reaches its terminal state (every node catches its own failure and
the composition below is a total function), the terminal report is the full
revised-template report of the terminal state and carries an entry for
every section, and each failed step leaves exactly its documented
placeholder text in its field (the cover letter and bullets, which the
final revision step may legitimately rewrite, carry their placeholder in
the pre-revision state, and keep it in the terminal state whenever the
revision call also fails). -/
theorem pipeline_total_completion (r j c : String) (o : Oracles) :
    ((run_pipeline r j c o).final_output =
        compile_report true (run_pipeline r j c o)) ∧
    (cover_letter_banner ∈ report_parts true (run_pipeline r j c o) ∧
     bullets_banner ∈ report_parts true (run_pipeline r j c o) ∧
     interview_banner ∈ report_parts true (run_pipeline r j c o) ∧
     role_banner ∈ report_parts true (run_pipeline r j c o) ∧
     learning_banner ∈ report_parts true (run_pipeline r j c o) ∧
     improvement_section (run_pipeline r j c o).improvement_suggestions ∈
       report_parts true (run_pipeline r j c o)) ∧
    (∀ e, o.atsExtract = Except.error e →
      (run_pipeline r j c o).ats_score = 50 ∧
      (run_pipeline r j c o).matched_skills = ["Error analyzing skills"] ∧
      (run_pipeline r j c o).missing_skills = ["ATS analysis failed: " ++ e]) ∧
    (∀ e, o.improveGen = Except.error e →
      route_after_ats (state_after_ats r j c o).ats_score = "resume_improvement" →
      (run_pipeline r j c o).improvement_suggestions =
        "❌ Improvement suggestions failed: " ++ e) ∧
    (route_after_ats (state_after_ats r j c o).ats_score = "generate_cover_letter" →
      (run_pipeline r j c o).improvement_suggestions = "") ∧
    (∀ e, o.coverGen = Except.error e →
      (pipeline_before_revision r j c o).cover_letter = cover_letter_failed e) ∧
    (∀ e, o.bulletsGen = Except.error e →
      (pipeline_before_revision r j c o).optimized_bullets =
        "❌ Resume optimization failed: " ++ e) ∧
    (∀ e, o.interviewGen = Except.error e →
      (run_pipeline r j c o).interview_questions =
        "❌ Interview questions generation failed: " ++ e) ∧
    (∀ e, o.roleGen = Except.error e →
      (run_pipeline r j c o).role_expectations =
        "❌ Role research failed: " ++ e) ∧
    (∀ e, o.learningGen = Except.error e →
      (run_pipeline r j c o).learning_plan =
        "❌ Learning plan generation failed: " ++ e) ∧
    (∀ e, o.reviewGen = Except.error e →
      (run_pipeline r j c o).review_notes =
        "Self-review skipped due to error: " ++ e) ∧
    ((∃ e, o.reviseCoverGen = Except.error e) ∨
       (∃ e, o.reviseBulletsGen = Except.error e) →
      (run_pipeline r j c o).cover_letter =
        (pipeline_before_revision r j c o).cover_letter ∧
      (run_pipeline r j c o).optimized_bullets =
        (pipeline_before_revision r j c o).optimized_bullets) := by
  refine ⟨?_, ⟨by simp [report_parts], by simp [report_parts], by simp [report_parts],
      by simp [report_parts], by simp [report_parts], by simp [report_parts]⟩,
    ?_, ?_, ?_, ?_, ?_, ?_, ?_, ?_, ?_, ?_⟩
  · unfold run_pipeline
    exact revise_final_output _ _ _
  · intro e he
    obtain ⟨h1, h2, h3⟩ := run_pipeline_ats_fields r j c o
    rw [h1, h2, h3]
    unfold state_after_ats
    rw [he]
    exact ats_node_error_fields _ e
  · intro e he hr
    rw [run_pipeline_suggestions]
    unfold state_after_route
    dsimp only
    rw [if_pos hr, he]
    exact improvement_node_error _ e
  · intro hr
    rw [run_pipeline_suggestions]
    unfold state_after_route
    dsimp only
    rw [if_neg (fun hcond =>
      (by decide : ("resume_improvement" : String) ≠ "generate_cover_letter")
        (hcond.symm.trans hr))]
    unfold state_after_ats
    rw [ats_node_keeps_suggestions]
    rfl
  · intro e he
    rw [(pre_revision_cover_bullets r j c o).1]
    unfold state_after_cover
    rw [he]
    exact cover_node_error _ e
  · intro e he
    rw [(pre_revision_cover_bullets r j c o).2]
    unfold state_after_optimizer
    rw [he]
    exact optimizer_node_error _ e
  · intro e he
    rw [(run_pipeline_interview_role r j c o).1]
    unfold state_after_interview
    rw [he]
    exact interview_node_error _ _ e
  · intro e he
    rw [(run_pipeline_interview_role r j c o).2]
    unfold state_after_interview
    rw [he]
    exact role_node_error _ _ e
  · intro e he
    rw [run_pipeline_learning]
    unfold state_after_compile
    rw [he]
    exact learning_node_error _ e
  · intro e he
    rw [run_pipeline_review_notes]
    unfold pipeline_before_revision
    rw [he]
    exact review_node_error _ e
  · intro h
    unfold run_pipeline
    exact revise_error_keeps_content _ _ _ h

/-- Oracle assignment for the C7 witness: every service call fails. -/
def all_fail_oracles : Oracles :=
  { atsExtract := Except.error "x", improveGen := Except.error "x",
    coverGen := Except.error "x", bulletsGen := Except.error "x",
    interviewGen := Except.error "x", roleGen := Except.error "x",
    learningGen := Except.error "x", reviewGen := Except.error "x",
    reviseCoverGen := Except.error "x", reviseBulletsGen := Except.error "x" }

/-- Witness for C7 at a run in which every service call fails. -/
theorem pipeline_total_completion_witness :
    (run_pipeline "r" "j" "c" all_fail_oracles).ats_score = 50 ∧
    (run_pipeline "r" "j" "c" all_fail_oracles).improvement_suggestions =
      "❌ Improvement suggestions failed: " ++ "x" ∧
    (run_pipeline "r" "j" "c" all_fail_oracles).interview_questions =
      "❌ Interview questions generation failed: " ++ "x" ∧
    (run_pipeline "r" "j" "c" all_fail_oracles).learning_plan =
      "❌ Learning plan generation failed: " ++ "x" ∧
    cover_letter_banner ∈ report_parts true (run_pipeline "r" "j" "c" all_fail_oracles) := by
  obtain ⟨hfin, hban, hats, himp, hnoimp, hcov, hbul, hint, hrole, hlearn, hrev, hkeep⟩ :=
    pipeline_total_completion "r" "j" "c" all_fail_oracles
  exact ⟨(hats "x" rfl).1, himp "x" rfl (by decide), hint "x" rfl,
    hlearn "x" rfl, hban.1⟩

/-- C8 counterexample: with an empty improvement_suggestions field the
improvement section of both report templates is the empty string: the
section is omitted entirely and no fallback line is substituted in its
place. -/
theorem improvement_empty_no_fallback :
    improvement_section "" = "" := rfl

/-- C8 (amended): the report sections are independently assembled from the
state fields; the improvement-suggestions section is included (banner plus
text) exactly when the field is nonempty and is omitted entirely (empty
string, no fallback line) when the field is empty. -/
theorem improvement_section_policy (s : String) (state : AgentState) :
    (s = "" → improvement_section s = "") ∧
    (s ≠ "" → improvement_section s = improvement_banner ++ s ++ "\n\n") ∧
    improvement_section state.improvement_suggestions ∈ report_parts false state ∧
    improvement_section state.improvement_suggestions ∈ report_parts true state := by
  refine ⟨?_, ?_, by simp [report_parts], by simp [report_parts]⟩
  · intro h
    unfold improvement_section
    rw [if_pos h]
  · intro h
    unfold improvement_section
    rw [if_neg h]

/-- Witness for the amended C8 theorem at an empty and a nonempty field. -/
theorem improvement_section_policy_witness :
    improvement_section "" = "" ∧
    improvement_section "abc" = improvement_banner ++ "abc" ++ "\n\n" :=
  ⟨(improvement_section_policy "" (initial_state "" "" "")).1 rfl,
   (improvement_section_policy "abc" (initial_state "" "" "")).2.1 (by decide)⟩

/-- C9: extract_text_from_pdf returns a string for every input and never
raises: on a failing read it returns the error-describing string prefixed
by the fixed marker, on a successful read it returns the stripped text, so
callers can only detect failure by content. -/
theorem extract_pdf_error_convention (e text : String) :
    extract_text_from_pdf (Except.error e) = "Error extracting PDF: " ++ e ∧
    extract_text_from_pdf (Except.ok text) = text.trim :=
  ⟨rfl, rfl⟩

/-- C10: run_agent hands process_application a plain string (the
final_output of the terminal state), so the `.get` attribute access on it
raises and every run of process_application returns the catch-all error
tuple instead of per-section outputs, for all inputs and all service
behaviours. -/
theorem process_application_catch_all (resume_read jd_read : Except String String)
    (company_name : String) (o : Oracles) :
    (∀ rt jt cn, run_agent_result rt jt cn o = PyVal.pyStr (run_agent rt jt cn o)) ∧
    process_application resume_read jd_read company_name o =
      error_outputs attr_err_get := by
  refine ⟨fun rt jt cn => rfl, ?_⟩
  rfl

end ResumeAgent
